import Mathlib

/-!
Verification of the visa-cover-letter API's prompt-assembly core
(`src/server.js`, the feature-complete variant of the repository).

Embedding conventions:
* JavaScript strings are Lean `String`s; all operations are implemented
  over the underlying `List Char` (one `Char` per JS code unit for the
  BMP text that occurs here), so that every definition evaluates in the
  kernel.
* Absent (`undefined`/`null`) field values are `Option.none`; JS template
  interpolation of `undefined` yields the literal string "undefined",
  mirrored by `jsStr`.
* `parseFloat` over a string already stripped to `[0-9.-]` is embedded as
  an exact decimal number `DecNum` (mantissa/10^exp).  All inputs in the
  repository's domain are exactly representable IEEE doubles, so exact
  decimal arithmetic coincides with the JS semantics on signs and on the
  subtraction used for the funds margin.
* `process.exit(1)` after a diagnostic is modelled as `Except.error`
  carrying the diagnostic message.
-/

namespace VisaApi

/-! ### Character/string utilities (JS semantics, char-list based) -/

/-- JS whitespace (the part of `\s` relevant to `trim`): space, tab,
newline, carriage return, vertical tab, form feed. -/
def jsWs (c : Char) : Bool :=
  c == ' ' || c == '\t' || c == '\n' || c == '\r' || c == '\x0b' || c == '\x0c'

/-- `String.prototype.trim`: drop leading and trailing whitespace. -/
def trimChars (l : List Char) : List Char :=
  ((l.dropWhile jsWs).reverse.dropWhile jsWs).reverse

def jsTrim (s : String) : String := String.mk (trimChars s.data)

/-- ASCII lower-casing, the behaviour of `toLowerCase` on the ASCII
labels and vocabulary words this code compares against. -/
def lowerChar (c : Char) : Char :=
  if 'A' ≤ c ∧ c ≤ 'Z' then Char.ofNat (c.toNat + 32) else c

def lowerChars (l : List Char) : List Char := l.map lowerChar

def jsLower (s : String) : String := String.mk (lowerChars s.data)

/-- `p` is an initial segment of `s` (Boolean). -/
def listBegins : List Char → List Char → Bool
  | [], _ => true
  | _ :: _, [] => false
  | a :: as, b :: bs => a == b && listBegins as bs

/-- `needle` occurs somewhere in `hay` (JS `String.prototype.includes`). -/
def listHas (needle : List Char) : List Char → Bool
  | [] => needle.isEmpty
  | c :: t => listBegins needle (c :: t) || listHas needle t

def strHas (s pat : String) : Bool := listHas pat.data s.data

/-- `Array.prototype.join('\n')`. -/
def joinNl : List (List Char) → List Char
  | [] => []
  | [l] => l
  | l :: rest => l ++ '\n' :: joinNl rest

/-- Split a character list at every newline (inverse view of `joinNl`). -/
def splitNl : List Char → List (List Char)
  | [] => [[]]
  | c :: rest =>
    if c == '\n' then [] :: splitNl rest
    else
      match splitNl rest with
      | [] => [[c]]
      | l :: ls => (c :: l) :: ls

/-- JS `String.prototype.slice(0, n)`. -/
def takeChars (s : String) (n : Nat) : String := String.mk (s.data.take n)

/-! ### The `clean` normaliser and payload schema -/

/-- `clean(v)` from `server.js`: `undefined`/`null` become absent, other
values are stringified (modelled as already being strings), trimmed, and
empty-after-trim becomes absent. -/
def clean (v : Option String) : Option String :=
  v.bind fun s =>
    let t := jsTrim s
    if t.data.isEmpty then none else some t

/-- JS template interpolation: `undefined` renders as "undefined". -/
def jsStr (o : Option String) : String := o.getD "undefined"

/-- The raw request body (`req.body`), restricted to the fields the
handler reads; values are modelled post-stringification. -/
structure RawBody where
  applicationType : Option String := none
  name : Option String := none
  age : Option String := none
  nationality : Option String := none
  applicantAddress : Option String := none
  contactPhone : Option String := none
  contactEmail : Option String := none
  dateOfBirth : Option String := none
  passportNumber : Option String := none
  passportIssueDate : Option String := none
  passportExpiryDate : Option String := none
  maritalStatus : Option String := none
  numDependents : Option String := none
  destination : Option String := none
  visaType : Option String := none
  purpose : Option String := none
  travelDates : Option String := none
  entryDate : Option String := none
  stayDuration : Option String := none
  invited : Option String := none
  inviterName : Option String := none
  inviterAddress : Option String := none
  inviterRelationship : Option String := none
  inviterDocs : Option String := none
  stayDetails : Option String := none
  travelItinerary : Option String := none
  occupation : Option String := none
  employerName : Option String := none
  employerAddress : Option String := none
  employmentDuration : Option String := none
  income : Option String := none
  otherIncome : Option String := none
  funding : Option String := none
  bankStatementDetails : Option String := none
  significantTransactions : Option String := none
  monthlyExpenses : Option String := none
  currentBankBalance : Option String := none
  estimatedTripCost : Option String := none
  propertyDetails : Option String := none
  businessCommitments : Option String := none
  familyDependents : Option String := none
  otherCommitments : Option String := none
  travelHistory : Option String := none
  visaRefusals : Option String := none
  validVisas : Option String := none
  sponsorSelf : Option String := none
  sponsorName : Option String := none
  sponsorRelationship : Option String := none
  sponsorOccupation : Option String := none
  sponsorIncome : Option String := none
  sponsorAccommodation : Option String := none
  sponsorDocs : Option String := none
  specialEvents : Option String := none
  compellingReasons : Option String := none
  supportingLetters : Option String := none
  potentialWeaknesses : Option String := none
  accommodation : Option String := none
  documents : Option String := none
  embassyName : Option String := none
  embassyAddress : Option String := none
  companyName : Option String := none

/-- The canonical payload built by the `/generate-letter` handler:
every field cleaned, `companyName` defaulted. -/
structure Payload where
  applicationType : Option String := none
  name : Option String := none
  age : Option String := none
  nationality : Option String := none
  applicantAddress : Option String := none
  contactPhone : Option String := none
  contactEmail : Option String := none
  dateOfBirth : Option String := none
  passportNumber : Option String := none
  passportIssueDate : Option String := none
  passportExpiryDate : Option String := none
  maritalStatus : Option String := none
  numDependents : Option String := none
  destination : Option String := none
  visaType : Option String := none
  purpose : Option String := none
  travelDates : Option String := none
  entryDate : Option String := none
  stayDuration : Option String := none
  invited : Option String := none
  inviterName : Option String := none
  inviterAddress : Option String := none
  inviterRelationship : Option String := none
  inviterDocs : Option String := none
  stayDetails : Option String := none
  travelItinerary : Option String := none
  occupation : Option String := none
  employerName : Option String := none
  employerAddress : Option String := none
  employmentDuration : Option String := none
  income : Option String := none
  otherIncome : Option String := none
  funding : Option String := none
  bankStatementDetails : Option String := none
  significantTransactions : Option String := none
  monthlyExpenses : Option String := none
  currentBankBalance : Option String := none
  estimatedTripCost : Option String := none
  propertyDetails : Option String := none
  businessCommitments : Option String := none
  familyDependents : Option String := none
  otherCommitments : Option String := none
  travelHistory : Option String := none
  visaRefusals : Option String := none
  validVisas : Option String := none
  sponsorSelf : Option String := none
  sponsorName : Option String := none
  sponsorRelationship : Option String := none
  sponsorOccupation : Option String := none
  sponsorIncome : Option String := none
  sponsorAccommodation : Option String := none
  sponsorDocs : Option String := none
  specialEvents : Option String := none
  compellingReasons : Option String := none
  supportingLetters : Option String := none
  potentialWeaknesses : Option String := none
  accommodation : Option String := none
  documents : Option String := none
  embassyName : Option String := none
  embassyAddress : Option String := none
  companyName : String := "No Guide Travel Agent"

/-- The `payload` object literal of the handler: `clean` applied to each
raw field, `companyName` defaulted to the fixed literal. -/
def mkPayload (b : RawBody) : Payload where
  applicationType := clean b.applicationType
  name := clean b.name
  age := clean b.age
  nationality := clean b.nationality
  applicantAddress := clean b.applicantAddress
  contactPhone := clean b.contactPhone
  contactEmail := clean b.contactEmail
  dateOfBirth := clean b.dateOfBirth
  passportNumber := clean b.passportNumber
  passportIssueDate := clean b.passportIssueDate
  passportExpiryDate := clean b.passportExpiryDate
  maritalStatus := clean b.maritalStatus
  numDependents := clean b.numDependents
  destination := clean b.destination
  visaType := clean b.visaType
  purpose := clean b.purpose
  travelDates := clean b.travelDates
  entryDate := clean b.entryDate
  stayDuration := clean b.stayDuration
  invited := clean b.invited
  inviterName := clean b.inviterName
  inviterAddress := clean b.inviterAddress
  inviterRelationship := clean b.inviterRelationship
  inviterDocs := clean b.inviterDocs
  stayDetails := clean b.stayDetails
  travelItinerary := clean b.travelItinerary
  occupation := clean b.occupation
  employerName := clean b.employerName
  employerAddress := clean b.employerAddress
  employmentDuration := clean b.employmentDuration
  income := clean b.income
  otherIncome := clean b.otherIncome
  funding := clean b.funding
  bankStatementDetails := clean b.bankStatementDetails
  significantTransactions := clean b.significantTransactions
  monthlyExpenses := clean b.monthlyExpenses
  currentBankBalance := clean b.currentBankBalance
  estimatedTripCost := clean b.estimatedTripCost
  propertyDetails := clean b.propertyDetails
  businessCommitments := clean b.businessCommitments
  familyDependents := clean b.familyDependents
  otherCommitments := clean b.otherCommitments
  travelHistory := clean b.travelHistory
  visaRefusals := clean b.visaRefusals
  validVisas := clean b.validVisas
  sponsorSelf := clean b.sponsorSelf
  sponsorName := clean b.sponsorName
  sponsorRelationship := clean b.sponsorRelationship
  sponsorOccupation := clean b.sponsorOccupation
  sponsorIncome := clean b.sponsorIncome
  sponsorAccommodation := clean b.sponsorAccommodation
  sponsorDocs := clean b.sponsorDocs
  specialEvents := clean b.specialEvents
  compellingReasons := clean b.compellingReasons
  supportingLetters := clean b.supportingLetters
  potentialWeaknesses := clean b.potentialWeaknesses
  accommodation := clean b.accommodation
  documents := clean b.documents
  embassyName := clean b.embassyName
  embassyAddress := clean b.embassyAddress
  companyName := (clean b.companyName).getD "No Guide Travel Agent"

/-! ### Scenario classification (`isSponsoredPayload`, `detectApplicationType`) -/

/-- `isSponsoredPayload` from `server.js`. -/
def isSponsoredPayload (p : Payload) : Bool :=
  let f := jsLower (p.funding.getD "")
  if f == "sponsor" || f == "sponsored" || f == "sponsorship" || f == "family" || f == "employer" then
    true
  else if jsLower (p.sponsorSelf.getD "") == "no" then true
  else if p.sponsorName.isSome || p.sponsorRelationship.isSome then true
  else false

/-- `detectApplicationType` from `server.js`. -/
def detectApplicationType (p : Payload) : String :=
  let t := jsLower (p.applicationType.getD "")
  if strHas t "reapp" then "Reapplication"
  else if p.visaRefusals.isSome then "Reapplication"
  else "First-time"

/-! ### Number parsing (`parseNum`) as exact decimals -/

/-- An exact decimal number `man / 10 ^ exp`, the value `parseFloat`
returns on the stripped currency strings this code handles. -/
structure DecNum where
  man : Int
  exp : Nat
  deriving DecidableEq, Repr

/-- The float subtraction `bal - trip` (exact on this domain). -/
def DecNum.sub (a b : DecNum) : DecNum :=
  ⟨a.man * ((10 : Nat) ^ b.exp : Nat) - b.man * ((10 : Nat) ^ a.exp : Nat), a.exp + b.exp⟩

def DecNum.isNonneg (a : DecNum) : Bool := decide (0 ≤ a.man)

def DecNum.isPos (a : DecNum) : Bool := decide (0 < a.man)

/-- The decimal equals the integer `k`. -/
def DecNum.eqInt (a : DecNum) (k : Int) : Bool := a.man == k * ((10 : Nat) ^ a.exp : Nat)

/-- Characters kept by `String(x).replace(/[^0-9.\-]/g, '')`. -/
def keepNumChar (c : Char) : Bool := c.isDigit || c == '.' || c == '-'

def digitsVal (l : List Char) : Nat :=
  l.foldl (fun a c => a * 10 + (c.toNat - '0'.toNat)) 0

/-- `parseFloat` on a string containing only `[0-9.-]`: optional leading
minus sign, then the longest `digits[.digits]` / `.digits` numeral; no
numeral means `NaN` (here `none`). -/
def parseFloatDec (l : List Char) : Option DecNum :=
  let neg := listBegins ['-'] l
  let l1 := if neg then l.drop 1 else l
  let ip := l1.takeWhile (·.isDigit)
  let r1 := l1.dropWhile (·.isDigit)
  let fp :=
    if listBegins ['.'] r1 then (r1.drop 1).takeWhile (·.isDigit) else []
  if ip.isEmpty && fp.isEmpty then none
  else
    let m : Int := (digitsVal ip) * ((10 : Nat) ^ fp.length : Nat) + (digitsVal fp)
    some ⟨if neg then -m else m, fp.length⟩

/-- `parseNum` from `server.js`: falsy input is `NaN` (absent fields are
the only falsy values a cleaned payload can hold); otherwise strip
non-numeric characters and `parseFloat`. -/
def parseNum (x : Option String) : Option DecNum :=
  match x with
  | none => none
  | some s => parseFloatDec (s.data.filter keepNumChar)

/-! ### Rationale builder (`buildRationalePoints`)

Each `cues.push(...)` of the source pushes one sentence; the sentences
are represented by one constructor each, carrying the payload data that
is interpolated into them (the locale-dependent `toLocaleString`
rendering of the margin is abstracted to the exact number shown). -/

inductive RCue where
  | margin (m : DecNum)
  | balanceCapacity
  | income (v : String)
  | employerSupport (who : String)
  | familySponsor (who rel : String)
  | thirdParty (who : String) (rel : Option String)
  | stay (excerpt : String)
  | invitation
  | ties (which : List String)
  | history
  | reappNewEvidence
  | reappTransactions
  | reappBankStatement
  | reappSponsorDocs
  | studyEmpathy
  | medicalEmpathy
  deriving DecidableEq, Repr

/-- Funds/affordability cues: the margin statement (only when the margin
is non-negative) or the generic capacity statement. -/
def fundsCues (p : Payload) : List RCue :=
  match parseNum p.currentBankBalance, parseNum p.estimatedTripCost with
  | some bal, some trip =>
    if trip.isPos then
      (if (bal.sub trip).isNonneg then [RCue.margin (bal.sub trip)] else [])
    else [RCue.balanceCapacity]
  | some _, none => [RCue.balanceCapacity]
  | none, _ => []

def incomeCues (p : Payload) : List RCue :=
  match p.income with
  | some v => [RCue.income v]
  | none => []

def fundingCues (p : Payload) : List RCue :=
  match p.funding with
  | none => []
  | some f =>
    if jsLower f == "employer" then
      (if p.employerName.isSome || p.employerAddress.isSome then
        [RCue.employerSupport (p.employerName.getD "employer")] else [])
    else if jsLower f == "family" then
      (if p.sponsorName.isSome || p.sponsorRelationship.isSome then
        [RCue.familySponsor (p.sponsorName.getD "family member")
          (p.sponsorRelationship.getD "relationship stated")] else [])
    else if jsLower f == "sponsor" then
      (match p.sponsorName with
       | some n => [RCue.thirdParty n p.sponsorRelationship]
       | none => [])
    else []

def stayCues (p : Payload) : List RCue :=
  match p.stayDetails with
  | some s => [RCue.stay (takeChars s 80)]
  | none => []

def inviteCues (p : Payload) : List RCue :=
  match p.invited with
  | some v => if jsLower v == "yes" then [RCue.invitation] else []
  | none => []

def tiesList (p : Payload) : List String :=
  (if p.propertyDetails.isSome then ["property ownership"] else []) ++
  (if p.businessCommitments.isSome || p.employerName.isSome then
    ["ongoing employment/business"] else []) ++
  (if p.familyDependents.isSome then ["family dependents"] else [])

def tiesCues (p : Payload) : List RCue :=
  if (tiesList p).isEmpty then [] else [RCue.ties (tiesList p)]

def historyCues (p : Payload) : List RCue :=
  if p.validVisas.isSome || p.travelHistory.isSome then [RCue.history] else []

def reappCues (p : Payload) (appType : String) : List RCue :=
  if appType == "Reapplication" then
    (if p.visaRefusals.isSome then [RCue.reappNewEvidence] else []) ++
    (if p.significantTransactions.isSome then [RCue.reappTransactions] else []) ++
    (if p.bankStatementDetails.isSome then [RCue.reappBankStatement] else []) ++
    (if p.sponsorDocs.isSome then [RCue.reappSponsorDocs] else [])
  else []

def purposeCues (p : Payload) : List RCue :=
  (if jsLower (p.visaType.getD "") == "study" then [RCue.studyEmpathy] else []) ++
  (if jsLower (p.visaType.getD "") == "medical" then [RCue.medicalEmpathy] else [])

/-- `buildRationalePoints(p, appType)`: the pushes in source order,
capped by `cues.slice(0, 8)`. -/
def buildRationalePoints (p : Payload) (appType : String) : List RCue :=
  (fundsCues p ++ incomeCues p ++ fundingCues p ++ stayCues p ++ inviteCues p ++
    tiesCues p ++ historyCues p ++ reappCues p appType ++ purposeCues p).take 8

/-! ### Fact-sheet builder (detail lines of the handler)

The handler pushes `"Label: value"` strings, unconditionally for the
required fields (plus the synthesized Application Type line and the
defaulted Company line) and presence-guarded for optional fields.  The
push sequence is embedded as a spec list of label/optional-value pairs
rendered in order. -/

/-- Render the ordered push list: a `none` value is a skipped push, a
`some v` value is a pushed `"label: v"` line. -/
def specRender : List (String × Option String) → List String
  | [] => []
  | (_, none) :: rest => specRender rest
  | (l, some v) :: rest => (l ++ ": " ++ v) :: specRender rest

/-- The detail-line push sequence of `POST /generate-letter` in
`server.js`, in source order. -/
def detailSpec (p : Payload) : List (String × Option String) :=
  [("Application Type", some (detectApplicationType p)),
   ("Full Name", some (jsStr p.name)),
   ("Age", some (jsStr p.age)),
   ("Nationality", some (jsStr p.nationality)),
   ("Date of Birth", p.dateOfBirth),
   ("Passport Number", p.passportNumber),
   ("Passport Issue Date", p.passportIssueDate),
   ("Passport Expiry Date", p.passportExpiryDate),
   ("Marital Status", p.maritalStatus),
   ("Number of Dependents", p.numDependents),
   ("Address", p.applicantAddress),
   ("Phone", p.contactPhone),
   ("Email", p.contactEmail),
   ("Destination", some (jsStr p.destination)),
   ("Visa Type", some (jsStr p.visaType)),
   ("Travel Dates", p.travelDates),
   ("Entry Date", p.entryDate),
   ("Duration of Stay", p.stayDuration),
   ("Purpose of Travel", some (jsStr p.purpose)),
   ("Invited by someone?", p.invited),
   ("Inviter Name", p.inviterName),
   ("Inviter Address", p.inviterAddress),
   ("Inviter Relationship", p.inviterRelationship),
   ("Inviter Documents", p.inviterDocs),
   ("Accommodation/Host Details", p.stayDetails),
   ("Travel Itinerary", p.travelItinerary),
   ("Occupation", p.occupation),
   ("Employer/Business Name", p.employerName),
   ("Employer/Business Address", p.employerAddress),
   ("Employment Duration", p.employmentDuration),
   ("Monthly Income", some (jsStr p.income)),
   ("Other Income", p.otherIncome),
   ("Funding Source", p.funding),
   ("Bank Statement Details", p.bankStatementDetails),
   ("Significant Transactions", p.significantTransactions),
   ("Monthly Expenses", p.monthlyExpenses),
   ("Current Bank Balance", p.currentBankBalance),
   ("Estimated Trip Cost", p.estimatedTripCost),
   ("Accommodation", p.accommodation),
   ("Supporting Documents", p.documents),
   ("Property Details", p.propertyDetails),
   ("Business/Employment Commitments", p.businessCommitments),
   ("Family/Dependents", p.familyDependents),
   ("Other Commitments", p.otherCommitments),
   ("Travel History", p.travelHistory),
   ("Visa Refusals", p.visaRefusals),
   ("Valid Visas", p.validVisas),
   ("Self-sponsored", p.sponsorSelf),
   ("Sponsor Name", p.sponsorName),
   ("Sponsor Relationship", p.sponsorRelationship),
   ("Sponsor Occupation", p.sponsorOccupation),
   ("Sponsor Income", p.sponsorIncome),
   ("Sponsor Accommodation Provided?", p.sponsorAccommodation),
   ("Sponsor Documents", p.sponsorDocs),
   ("Special Events/Extras", p.specialEvents),
   ("Compelling Reasons", p.compellingReasons),
   ("Supporting Letters/Docs", p.supportingLetters),
   ("Potential Weaknesses", p.potentialWeaknesses),
   ("Company", some p.companyName),
   ("Embassy Name", p.embassyName),
   ("Embassy Address", p.embassyAddress)]

/-- The fact sheet: the array `d` of the handler. -/
def detailLines (p : Payload) : List String := specRender (detailSpec p)

/-- `detailLines.join('\n')`, the text scenario regexes run over. -/
def joinedDetails (p : Payload) : String :=
  String.mk (joinNl ((detailLines p).map String.data))

/-! ### Validation of `POST /generate-letter` -/

def requiredKeys : List String :=
  ["name", "age", "nationality", "destination", "visaType", "purpose", "income"]

/-- Dynamic access `payload[k]` for the required keys. -/
def reqGet (p : Payload) (k : String) : Option String :=
  if k == "name" then p.name
  else if k == "age" then p.age
  else if k == "nationality" then p.nationality
  else if k == "destination" then p.destination
  else if k == "visaType" then p.visaType
  else if k == "purpose" then p.purpose
  else if k == "income" then p.income
  else none

def sponsorNameMsg : String :=
  "sponsorName (required when funding involves a sponsor/family/employer)"

def sponsorRelMsg : String :=
  "sponsorRelationship (required when funding involves a sponsor/family)"

/-- `required.filter((k) => !payload[k])`. -/
def baseMissing (p : Payload) : List String :=
  requiredKeys.filter fun k => (reqGet p k).isNone

/-- The sponsor sanity block: entries appended to `missing` when the
payload is classified as sponsored. -/
def sponsorMissing (p : Payload) : List String :=
  if isSponsoredPayload p then
    (if p.sponsorName.isNone then [sponsorNameMsg] else []) ++
    (if p.sponsorRelationship.isNone then [sponsorRelMsg] else [])
  else []

/-- The full `missing` array at the `if (missing.length)` check. -/
def missingReport (p : Payload) : List String :=
  baseMissing p ++ sponsorMissing p

/-- The handler up to the LLM boundary: clean the body, validate, and
either reject with the missing-field report (HTTP 400) or proceed to the
prompt stage with the fact sheet. -/
def generateLetterCheck (b : RawBody) : Except (List String) (List String) :=
  let p := mkPayload b
  let missing := missingReport p
  if missing.isEmpty then Except.ok (detailLines p) else Except.error missing

/-! ### Style digest (`buildStyleDigest`) -/

/-- `clip(text, max)`: trim when within budget, otherwise slice to the
budget, trim, and append the truncation marker. -/
def clipChars (l : List Char) (max : Nat) : List Char :=
  if l.length ≤ max then trimChars l
  else trimChars (l.take max) ++ '\n' :: ['…']

/-- One appended block: `"\n\n### Sample {i+1}: {name}\n{chunk}"`. -/
def sampleBlock (i : Nat) (name text : List Char) (perFileChars : Nat) : List Char :=
  '\n' :: '\n' :: "### Sample ".data ++ (Nat.toDigits 10 (i + 1)) ++
    ": ".data ++ name ++ '\n' :: clipChars text perFileChars

/-- The accumulation loop of `buildStyleDigest`: stop (returning the
accumulator unchanged) as soon as appending the next block would exceed
the total budget. -/
def digestLoop (per total : Nat) :
    List (List Char × List Char) → Nat → List Char → List Char
  | [], _, out => out
  | (name, text) :: rest, i, out =>
    let next := sampleBlock i name text per
    if total < (out ++ next).length then out
    else digestLoop per total rest (i + 1) (out ++ next)

/-- `buildStyleDigest(files, {maxFiles, perFileChars, totalChars})`; the
source defaults are `maxFiles = 10`, `perFileChars = 900`,
`totalChars = 5000`. -/
def buildStyleDigest (files : List (List Char × List Char))
    (maxFiles perFileChars totalChars : Nat) : List Char :=
  trimChars (digestLoop perFileChars totalChars (files.take maxFiles) 0 [])

/-- Concatenation of whole sample blocks, used to state that the digest
consists of whole files only. -/
def blocksConcat (per : Nat) : List (List Char × List Char) → Nat → List Char
  | [], _ => []
  | (name, text) :: rest, i => sampleBlock i name text per ++ blocksConcat per rest (i + 1)

/-! ### SOP asset loading (`requireFile` / `requireAtLeastOneTxt` /
`loadSOPStrict`)

The filesystem is a lookup of rule filenames plus directory listings for
the two mandatory directories (the directories themselves are
auto-created by the startup code, so only content can be missing).
`console.error` + `process.exit(1)` is modelled as `Except.error`
carrying the printed diagnostic. -/

structure AssetFS where
  rules : String → Option String
  minis : List (String × String)
  samples : List (String × String)

structure SOPBundle where
  masterRules : String
  structureGuide : String
  qualityChecklist : String
  masterTemplate : String
  minis : List (String × String)
  samples : List (String × String)

def requireFile (fs : AssetFS) (name label : String) : Except String String :=
  match fs.rules name with
  | none => Except.error ("Missing required " ++ label ++ ": " ++ name)
  | some c => Except.ok c

/-- The `/\.(txt|md)$/i` filename filter. -/
def isTxtName (n : String) : Bool :=
  listBegins (lowerChars ".txt".data).reverse (lowerChars n.data).reverse ||
  listBegins (lowerChars ".md".data).reverse (lowerChars n.data).reverse

def requireAtLeastOneTxt (files : List (String × String)) (dir label : String) :
    Except String (List (String × String)) :=
  let hits := files.filter fun f => isTxtName f.1
  if hits.isEmpty then
    Except.error ("No .txt/.md files found in " ++ dir ++ " (" ++ label ++ ")")
  else Except.ok hits

/-- `loadSOPStrict`: the startup gate, aborting at the first missing
mandatory asset. -/
def loadSOPStrict (fs : AssetFS) : Except String SOPBundle := do
  let masterRules ← requireFile fs "master_rules.txt" "rules/master_rules.txt"
  let structureGuide ← requireFile fs "structure_guide.txt" "rules/structure_guide.txt"
  let qualityChecklist ← requireFile fs "quality_checklist.txt" "rules/quality_checklist.txt"
  let masterTemplate ←
    match fs.rules "master_template.txt" with
    | some c => Except.ok c
    | none =>
      match fs.rules "master_templete.txt" with
      | some c => Except.ok c
      | none =>
        Except.error "Missing required rules/master_template.txt (or master_templete.txt)"
  let minis ← requireAtLeastOneTxt fs.minis "mini_templates" "mini templates"
  let samples ← requireAtLeastOneTxt fs.samples "samples" "samples"
  return ⟨masterRules, structureGuide, qualityChecklist, masterTemplate, minis, samples⟩

/-! ### The refusal-line regex of `buildMessages`

`/(^|\n)\s*(Visa Refusals|Previous Visa Refusals)\s*:/i` over the joined
fact sheet: some line, after leading whitespace, carries one of the two
labels followed by optional whitespace and a colon (case-insensitive). -/

def afterLabelColon (low lab : List Char) : Bool :=
  listBegins lab low &&
    (match (low.drop lab.length).dropWhile jsWs with
     | ':' :: _ => true
     | _ => false)

def refusalLabeledLine (line : List Char) : Bool :=
  let low := lowerChars (line.dropWhile jsWs)
  afterLabelColon low "visa refusals".data ||
  afterLabelColon low "previous visa refusals".data

/-- The anchored refusal-label regex over a whole text. -/
def refusalLabeled (s : String) : Bool :=
  (splitNl s.data).any refusalLabeledLine

/-! ### Counting fact-sheet lines by label -/

/-- The line belongs to the field labelled `lbl`: it starts with
`"lbl: "`. -/
def lineFor (lbl line : String) : Bool :=
  listBegins (lbl ++ ": ").data line.data

/-- How many rendered lines of the push list carry the label `lbl`. -/
def labelCount (lbl : String) (L : List (String × Option String)) : Nat :=
  (specRender L).countP (lineFor lbl)

/-- `l` is label-compatible with `lbl`: equal, or neither `"lbl: "` nor
`"l: "` is an initial segment of the other (so lines of one can never be
mistaken for lines of the other, whatever the value). -/
def labelCross (lbl l : String) : Bool :=
  (l == lbl) ||
    (!listBegins (lbl ++ ": ").data ((l ++ ": ").data) &&
     !listBegins ((l ++ ": ").data) ((lbl ++ ": ").data))

def labelOkAll (lbl : String) (labels : List String) : Bool :=
  labels.all (labelCross lbl)

def labelsPairwiseOk (labels : List String) : Bool :=
  labels.all fun l => labelOkAll l labels

/-- The fixed label sequence of the fact sheet (first components of
`detailSpec`). -/
def allLabels : List String :=
  ["Application Type", "Full Name", "Age", "Nationality", "Date of Birth",
   "Passport Number", "Passport Issue Date", "Passport Expiry Date",
   "Marital Status", "Number of Dependents", "Address", "Phone", "Email",
   "Destination", "Visa Type", "Travel Dates", "Entry Date",
   "Duration of Stay", "Purpose of Travel", "Invited by someone?",
   "Inviter Name", "Inviter Address", "Inviter Relationship",
   "Inviter Documents", "Accommodation/Host Details", "Travel Itinerary",
   "Occupation", "Employer/Business Name", "Employer/Business Address",
   "Employment Duration", "Monthly Income", "Other Income", "Funding Source",
   "Bank Statement Details", "Significant Transactions", "Monthly Expenses",
   "Current Bank Balance", "Estimated Trip Cost", "Accommodation",
   "Supporting Documents", "Property Details",
   "Business/Employment Commitments", "Family/Dependents",
   "Other Commitments", "Travel History", "Visa Refusals", "Valid Visas",
   "Self-sponsored", "Sponsor Name", "Sponsor Relationship",
   "Sponsor Occupation", "Sponsor Income",
   "Sponsor Accommodation Provided?", "Sponsor Documents",
   "Special Events/Extras", "Compelling Reasons", "Supporting Letters/Docs",
   "Potential Weaknesses", "Company", "Embassy Name", "Embassy Address"]

/-- Labels of the lines every validated request carries: the synthesized
Application Type line, the seven required-field lines, and the defaulted
Company line. -/
def alwaysLabels : List String :=
  ["Application Type", "Full Name", "Age", "Nationality", "Destination",
   "Visa Type", "Purpose of Travel", "Monthly Income", "Company"]

/-- The optional fields: fact-sheet label together with the payload
field the handler guards the push on. -/
def optionalFieldSpecs : List (String × (Payload → Option String)) :=
  [("Date of Birth", fun p => p.dateOfBirth),
   ("Passport Number", fun p => p.passportNumber),
   ("Passport Issue Date", fun p => p.passportIssueDate),
   ("Passport Expiry Date", fun p => p.passportExpiryDate),
   ("Marital Status", fun p => p.maritalStatus),
   ("Number of Dependents", fun p => p.numDependents),
   ("Address", fun p => p.applicantAddress),
   ("Phone", fun p => p.contactPhone),
   ("Email", fun p => p.contactEmail),
   ("Travel Dates", fun p => p.travelDates),
   ("Entry Date", fun p => p.entryDate),
   ("Duration of Stay", fun p => p.stayDuration),
   ("Invited by someone?", fun p => p.invited),
   ("Inviter Name", fun p => p.inviterName),
   ("Inviter Address", fun p => p.inviterAddress),
   ("Inviter Relationship", fun p => p.inviterRelationship),
   ("Inviter Documents", fun p => p.inviterDocs),
   ("Accommodation/Host Details", fun p => p.stayDetails),
   ("Travel Itinerary", fun p => p.travelItinerary),
   ("Occupation", fun p => p.occupation),
   ("Employer/Business Name", fun p => p.employerName),
   ("Employer/Business Address", fun p => p.employerAddress),
   ("Employment Duration", fun p => p.employmentDuration),
   ("Other Income", fun p => p.otherIncome),
   ("Funding Source", fun p => p.funding),
   ("Bank Statement Details", fun p => p.bankStatementDetails),
   ("Significant Transactions", fun p => p.significantTransactions),
   ("Monthly Expenses", fun p => p.monthlyExpenses),
   ("Current Bank Balance", fun p => p.currentBankBalance),
   ("Estimated Trip Cost", fun p => p.estimatedTripCost),
   ("Accommodation", fun p => p.accommodation),
   ("Supporting Documents", fun p => p.documents),
   ("Property Details", fun p => p.propertyDetails),
   ("Business/Employment Commitments", fun p => p.businessCommitments),
   ("Family/Dependents", fun p => p.familyDependents),
   ("Other Commitments", fun p => p.otherCommitments),
   ("Travel History", fun p => p.travelHistory),
   ("Visa Refusals", fun p => p.visaRefusals),
   ("Valid Visas", fun p => p.validVisas),
   ("Self-sponsored", fun p => p.sponsorSelf),
   ("Sponsor Name", fun p => p.sponsorName),
   ("Sponsor Relationship", fun p => p.sponsorRelationship),
   ("Sponsor Occupation", fun p => p.sponsorOccupation),
   ("Sponsor Income", fun p => p.sponsorIncome),
   ("Sponsor Accommodation Provided?", fun p => p.sponsorAccommodation),
   ("Sponsor Documents", fun p => p.sponsorDocs),
   ("Special Events/Extras", fun p => p.specialEvents),
   ("Compelling Reasons", fun p => p.compellingReasons),
   ("Supporting Letters/Docs", fun p => p.supportingLetters),
   ("Potential Weaknesses", fun p => p.potentialWeaknesses),
   ("Embassy Name", fun p => p.embassyName),
   ("Embassy Address", fun p => p.embassyAddress)]

/-! ### Concrete fixtures used by witnesses and counterexamples -/

/-- Scenario 1 of the spec: the minimal valid request. -/
def adaRaw : RawBody :=
  { name := some "Ada Obi", age := some "29", nationality := some "Nigerian",
    destination := some "UK", visaType := some "Tourist",
    purpose := some "Holiday", income := some "₦450,000" }

/-- Scenario 4 of the spec: balance and trip cost figures. -/
def marginRaw : RawBody :=
  { adaRaw with currentBankBalance := some "₦2,000,000",
                estimatedTripCost := some "₦1,200,000" }

/-- A valid request whose purpose field carries an embedded newline that
renders a refusal-labelled line into the fact sheet. -/
def refusalLineRaw : RawBody :=
  { adaRaw with purpose := some "Holiday\nVisa Refusals: refused in 2022 for funds" }

/-- A request missing `age` and `nationality`, with family funding and no
sponsor identity fields. -/
def missingRaw : RawBody :=
  { name := some "A", destination := some "UK", visaType := some "Tourist",
    purpose := some "Holiday", income := some "x", funding := some "family" }

/-- A valid request whose bank balance is below the trip cost. -/
def negMarginRaw : RawBody :=
  { adaRaw with currentBankBalance := some "1000", estimatedTripCost := some "2000" }

/-- A valid self-funded request carrying a sponsor name but no sponsor
relationship. -/
def loneSponsorRaw : RawBody :=
  { adaRaw with sponsorName := some "Uncle J" }

/-- A valid request with an explicit funding value. -/
def fundedRaw : RawBody :=
  { adaRaw with funding := some "self" }

/-- Scenario 3 of the spec: a prior-refusals field is present. -/
def refusalFieldRaw : RawBody :=
  { adaRaw with visaRefusals := some "Refused in 2022 for insufficient funds" }

/-- An asset store missing every required rule file (in particular both
`master_rules.txt` and `structure_guide.txt`) while the two mandatory
directories have content. -/
def fsBoth : AssetFS :=
  ⟨fun _ => none, [("a.txt", "mini content")], [("s.txt", "sample content")]⟩

/-- The nine lines the handler renders for `adaRaw`. -/
def adaNine : List String :=
  ["Application Type: First-time", "Full Name: Ada Obi", "Age: 29",
   "Nationality: Nigerian", "Destination: UK", "Visa Type: Tourist",
   "Purpose of Travel: Holiday", "Monthly Income: ₦450,000",
   "Company: No Guide Travel Agent"]

/-- The eight lines claim C9 expects for `adaRaw` (no Application Type
line). -/
def adaEightClaimed : List String :=
  ["Full Name: Ada Obi", "Age: 29", "Nationality: Nigerian",
   "Destination: UK", "Visa Type: Tourist", "Purpose of Travel: Holiday",
   "Monthly Income: ₦450,000", "Company: No Guide Travel Agent"]

end VisaApi

namespace VisaApi

/-! ### Helper lemmas: initial segments and label counting -/

theorem listBegins_append_self (a w : List Char) : listBegins a (a ++ w) = true := by
  induction a with
  | nil => rfl
  | cons x xs ih => simp [listBegins, ih]

theorem listBegins_cross (a b w : List Char) (h1 : listBegins a b = false)
    (h2 : listBegins b a = false) : listBegins a (b ++ w) = false := by
  induction a generalizing b with
  | nil => simp [listBegins] at h1
  | cons x xs ih =>
    cases b with
    | nil => simp [listBegins] at h2
    | cons y ys =>
      simp only [List.cons_append, listBegins, Bool.and_eq_false_iff] at h1 h2 ⊢
      rcases h1 with h1 | h1
      · exact Or.inl h1
      · rcases h2 with h2 | h2
        · cases hxy : (x == y) with
          | false => exact Or.inl rfl
          | true =>
            have hxy2 := eq_of_beq hxy
            subst hxy2
            simp at h2
        · exact Or.inr (ih ys h1 h2)

theorem labelOkAll_of_pairwise {labels : List String} {lbl : String}
    (hp : labelsPairwiseOk labels = true) (hmem : lbl ∈ labels) :
    labelOkAll lbl labels = true := by
  unfold labelsPairwiseOk at hp
  exact (List.all_eq_true.mp hp) lbl hmem

theorem countP_zero_of_label_notin (lbl : String) (L : List (String × Option String))
    (h : lbl ∉ L.map Prod.fst) :
    L.countP (fun e => (e.1 == lbl) && e.2.isSome) = 0 := by
  induction L with
  | nil => rfl
  | cons e rest ih =>
    simp only [List.map_cons, List.mem_cons] at h
    push_neg at h
    rw [List.countP_cons, ih h.2]
    have : (e.1 == lbl) = false := by
      cases hb : (e.1 == lbl)
      · rfl
      · exact absurd (eq_of_beq hb).symm h.1
    simp [this]

end VisaApi

namespace VisaApi

theorem labelCount_eq_countP (lbl : String) (L : List (String × Option String))
    (h : labelOkAll lbl (L.map Prod.fst) = true) :
    labelCount lbl L = L.countP (fun e => (e.1 == lbl) && e.2.isSome) := by
  induction L with
  | nil => rfl
  | cons e rest ih =>
    obtain ⟨l, v⟩ := e
    simp only [List.map_cons, labelOkAll, List.all_cons, Bool.and_eq_true] at h
    have hh := h.1
    have ht : labelOkAll lbl (rest.map Prod.fst) = true := h.2
    cases v with
    | none =>
      simp only [labelCount, specRender] at ih ⊢
      rw [ih ht, List.countP_cons]
      simp
    | some w =>
      simp only [labelCount, specRender] at ih ⊢
      rw [List.countP_cons, List.countP_cons, ih ht]
      congr 1
      show (if lineFor lbl (l ++ ": " ++ w) = true then 1 else 0) =
        (if ((l == lbl) && (some w).isSome) = true then 1 else 0)
      unfold labelCross at hh
      rcases Bool.or_eq_true_iff.mp hh with heq | hcross
      · have hl := eq_of_beq heq
        subst hl
        have hline : lineFor l (l ++ ": " ++ w) = true := by
          unfold lineFor
          rw [String.data_append]
          exact listBegins_append_self _ _
        simp [hline]
      · rw [Bool.and_eq_true] at hcross
        have hA : listBegins (lbl ++ ": ").data ((l ++ ": ").data) = false := by
          have := hcross.1
          cases hx : listBegins (lbl ++ ": ").data ((l ++ ": ").data)
          · rfl
          · rw [hx] at this; exact absurd this (by simp)
        have hB : listBegins ((l ++ ": ").data) ((lbl ++ ": ").data) = false := by
          have := hcross.2
          cases hx : listBegins ((l ++ ": ").data) ((lbl ++ ": ").data)
          · rfl
          · rw [hx] at this; exact absurd this (by simp)
        have hline : lineFor lbl (l ++ ": " ++ w) = false := by
          unfold lineFor
          rw [String.data_append]
          exact listBegins_cross _ _ _ hA hB
        have hne : (l == lbl) = false := by
          cases hb : (l == lbl)
          · rfl
          · have hl := eq_of_beq hb
            subst hl
            have hself := listBegins_append_self ((l ++ ": ").data) []
            rw [List.append_nil] at hself
            rw [hself] at hA
            exact absurd hA (by simp)
        simp [hline, hne]

end VisaApi

namespace VisaApi

theorem countP_label_mem (lbl : String) (v : Option String) (L : List (String × Option String))
    (hnodup : (L.map Prod.fst).Nodup) (hmem : (lbl, v) ∈ L) :
    L.countP (fun e => (e.1 == lbl) && e.2.isSome) = if v.isSome then 1 else 0 := by
  induction L with
  | nil => simp at hmem
  | cons e rest ih =>
    rw [List.map_cons, List.nodup_cons] at hnodup
    rcases List.mem_cons.mp hmem with heq | hmem2
    · subst heq
      rw [List.countP_cons]
      rw [countP_zero_of_label_notin lbl rest (by simpa using hnodup.1)]
      simp
    · have hlblmem : lbl ∈ rest.map Prod.fst := by
        have := List.mem_map_of_mem Prod.fst hmem2
        simpa using this
      have hne : (e.1 == lbl) = false := by
        cases hb : (e.1 == lbl)
        · rfl
        · exact absurd (eq_of_beq hb ▸ hlblmem) hnodup.1
      rw [List.countP_cons, ih hnodup.2 hmem2]
      simp [hne]

theorem detailSpec_labels (p : Payload) : (detailSpec p).map Prod.fst = allLabels := rfl

theorem allLabels_pairwiseOk : labelsPairwiseOk allLabels = true := by decide

theorem allLabels_nodup : allLabels.Nodup := by decide

theorem labelCount_detail (p : Payload) (lbl : String) (v : Option String)
    (hmem : (lbl, v) ∈ detailSpec p) :
    labelCount lbl (detailSpec p) = if v.isSome then 1 else 0 := by
  have hlbl : lbl ∈ allLabels := by
    rw [← detailSpec_labels p]
    have := List.mem_map_of_mem Prod.fst hmem
    simpa using this
  rw [labelCount_eq_countP lbl _ (by
        rw [detailSpec_labels]
        exact labelOkAll_of_pairwise allLabels_pairwiseOk hlbl)]
  exact countP_label_mem lbl v _ (by rw [detailSpec_labels]; exact allLabels_nodup) hmem

end VisaApi

namespace VisaApi

theorem isSponsored_eq_or (p : Payload) :
    isSponsoredPayload p =
      (jsLower (p.funding.getD "") == "sponsor" ||
       jsLower (p.funding.getD "") == "sponsored" ||
       jsLower (p.funding.getD "") == "sponsorship" ||
       jsLower (p.funding.getD "") == "family" ||
       jsLower (p.funding.getD "") == "employer" ||
       jsLower (p.sponsorSelf.getD "") == "no" ||
       p.sponsorName.isSome || p.sponsorRelationship.isSome) := by
  simp only [isSponsoredPayload]
  split_ifs with h1 h2 h3 <;> simp_all

theorem jsLower_empty : jsLower "" = "" := by decide

/-- C2: `isSponsoredPayload` returns true exactly when the funding field
(lowercased) is one of the fixed vocabulary, or the self-sponsorship
field equals "no" case-insensitively, or a sponsor name or sponsor
relationship is present. -/
theorem isSponsoredPayload_spec (p : Payload) :
    isSponsoredPayload p = true ↔
      ((∃ v, p.funding = some v ∧
          jsLower v ∈ ["sponsor", "sponsored", "sponsorship", "family", "employer"]) ∨
       (∃ v, p.sponsorSelf = some v ∧ jsLower v = "no") ∨
       p.sponsorName.isSome = true ∨ p.sponsorRelationship.isSome = true) := by
  rw [isSponsored_eq_or]
  cases hf : p.funding <;> cases hs : p.sponsorSelf <;>
    simp [jsLower_empty] <;> tauto

/-- C3 (amended): the derived application type is binary, and it is
`Reapplication` exactly when the explicit application-type field
contains "reapp" (case-insensitively) or the prior-refusals field is
present; the refusal-labelled fact-sheet line regex does not feed it. -/
theorem detectApplicationType_spec (p : Payload) :
    (detectApplicationType p = "Reapplication" ∨ detectApplicationType p = "First-time") ∧
    (detectApplicationType p = "Reapplication" ↔
      (strHas (jsLower (p.applicationType.getD "")) "reapp" = true ∨
       p.visaRefusals.isSome = true)) := by
  unfold detectApplicationType
  cases h1 : strHas (jsLower (p.applicationType.getD "")) "reapp" <;>
    cases h2 : p.visaRefusals <;> simp [h1, h2]

/-- C3 (counterexample): a valid request whose purpose value embeds a
newline renders a refusal-labelled line into the fact sheet (matched by
the anchored case-insensitive regex) while the derived application type
stays `First-time`. -/
theorem detectApplicationType_cex :
    (mkPayload refusalLineRaw).applicationType = none ∧
    (mkPayload refusalLineRaw).visaRefusals = none ∧
    refusalLabeled (joinedDetails (mkPayload refusalLineRaw)) = true ∧
    detectApplicationType (mkPayload refusalLineRaw) = "First-time" := by
  decide

/-- C5: whenever both money fields parse and the trip cost is positive
with a non-negative margin, the rationale list contains the margin
statement whose amount is exactly balance minus cost. -/
theorem margin_cue_emitted (p : Payload) (ty : String) (b t : DecNum)
    (hb : parseNum p.currentBankBalance = some b)
    (ht : parseNum p.estimatedTripCost = some t)
    (hpos : t.isPos = true) (hnn : (b.sub t).isNonneg = true) :
    RCue.margin (b.sub t) ∈ buildRationalePoints p ty := by
  unfold buildRationalePoints
  have hf : fundsCues p = [RCue.margin (b.sub t)] := by
    unfold fundsCues
    rw [hb, ht]
    simp [hpos, hnn]
  rw [hf]
  simp [List.take]

/-- C5 (witness): the spec's scenario 4 figures yield the margin 800000. -/
theorem margin_cue_emitted_witness :
    RCue.margin ⟨800000, 0⟩ ∈ buildRationalePoints (mkPayload marginRaw) "First-time" ∧
    DecNum.eqInt ⟨800000, 0⟩ 800000 = true := by
  constructor
  · have h := margin_cue_emitted (mkPayload marginRaw) "First-time"
      ⟨2000000, 0⟩ ⟨1200000, 0⟩ (by decide) (by decide) (by decide) (by decide)
    have e : DecNum.sub ⟨2000000, 0⟩ ⟨1200000, 0⟩ = ⟨800000, 0⟩ := by decide
    rw [e] at h
    exact h
  · decide

/-- C7 (counterexample): with both `master_rules.txt` and
`structure_guide.txt` missing, startup reports only the first missing
asset; the diagnostic never mentions `structure_guide`. -/
theorem loadSOP_first_missing_cex :
    fsBoth.rules "master_rules.txt" = none ∧
    fsBoth.rules "structure_guide.txt" = none ∧
    loadSOPStrict fsBoth =
      Except.error "Missing required rules/master_rules.txt: master_rules.txt" ∧
    strHas "Missing required rules/master_rules.txt: master_rules.txt"
      "structure_guide" = false := by
  refine ⟨rfl, rfl, rfl, by decide⟩

/-- C7 (amended): asset loading fails fast; whenever `master_rules.txt`
is missing the startup diagnostic is exactly the first-missing-file
message, independent of any other missing assets. -/
theorem loadSOP_fail_fast (fs : AssetFS) (h : fs.rules "master_rules.txt" = none) :
    loadSOPStrict fs =
      Except.error "Missing required rules/master_rules.txt: master_rules.txt" := by
  unfold loadSOPStrict requireFile
  rw [h]
  rfl

/-- C7 (witness). -/
theorem loadSOP_fail_fast_witness :
    loadSOPStrict fsBoth =
      Except.error "Missing required rules/master_rules.txt: master_rules.txt" :=
  loadSOP_fail_fast fsBoth rfl

/-- C8 (amended): in `server.js` the Funding Source line is emitted
exactly when the funding field is present (there is no self-funded
default line), while an unset company name does default to the fixed
literal. -/
theorem funding_line_iff_company_default :
    (∀ p : Payload, labelCount "Funding Source" (detailSpec p) =
      if p.funding.isSome then 1 else 0) ∧
    (∀ b : RawBody, clean b.companyName = none →
      (mkPayload b).companyName = "No Guide Travel Agent") := by
  constructor
  · intro p
    exact labelCount_detail p "Funding Source" p.funding (by simp [detailSpec])
  · intro b h
    simp [mkPayload, h]

/-- C8 (counterexample): a valid request with no funding field passes
validation yet its fact sheet carries no Funding Source line at all. -/
theorem funding_line_cex :
    (mkPayload adaRaw).funding = none ∧
    missingReport (mkPayload adaRaw) = [] ∧
    labelCount "Funding Source" (detailSpec (mkPayload adaRaw)) = 0 := by
  decide

/-- C8 (witness). -/
theorem funding_line_witness :
    labelCount "Funding Source" (detailSpec (mkPayload fundedRaw)) = 1 ∧
    (mkPayload adaRaw).companyName = "No Guide Travel Agent" := by
  constructor
  · rw [funding_line_iff_company_default.1 (mkPayload fundedRaw)]
    decide
  · exact funding_line_iff_company_default.2 adaRaw (by decide)

end VisaApi

namespace VisaApi

/-- C9 (amended): an optional field has a fact-sheet line exactly when
it is present; the Application Type line, the seven required-field
lines, and the Company line appear exactly once; and the scenario-1
input renders exactly those nine lines. -/
theorem factsheet_omission_law :
    (∀ p : Payload, ∀ e ∈ optionalFieldSpecs,
      labelCount e.1 (detailSpec p) = if (e.2 p).isSome then 1 else 0) ∧
    (∀ p : Payload, ∀ lbl ∈ alwaysLabels, labelCount lbl (detailSpec p) = 1) ∧
    detailLines (mkPayload adaRaw) = adaNine := by
  refine ⟨?_, ?_, by decide⟩
  · intro p e he
    fin_cases he <;> exact labelCount_detail p _ _ (by simp [detailSpec])
  · intro p lbl hl
    fin_cases hl
    · exact labelCount_detail p "Application Type" (some (detectApplicationType p))
        (by simp [detailSpec])
    · exact labelCount_detail p "Full Name" (some (jsStr p.name)) (by simp [detailSpec])
    · exact labelCount_detail p "Age" (some (jsStr p.age)) (by simp [detailSpec])
    · exact labelCount_detail p "Nationality" (some (jsStr p.nationality)) (by simp [detailSpec])
    · exact labelCount_detail p "Destination" (some (jsStr p.destination)) (by simp [detailSpec])
    · exact labelCount_detail p "Visa Type" (some (jsStr p.visaType)) (by simp [detailSpec])
    · exact labelCount_detail p "Purpose of Travel" (some (jsStr p.purpose)) (by simp [detailSpec])
    · exact labelCount_detail p "Monthly Income" (some (jsStr p.income)) (by simp [detailSpec])
    · exact labelCount_detail p "Company" (some p.companyName) (by simp [detailSpec])

end VisaApi

namespace VisaApi

/-- C9 (counterexample): the scenario-1 fact sheet is not the claimed
seven-required-plus-Company list: it has nine lines, including the
synthesized Application Type line. -/
theorem factsheet_ada_cex :
    detailLines (mkPayload adaRaw) = adaNine ∧
    adaNine ≠ adaEightClaimed ∧
    (detailLines (mkPayload adaRaw)).length = 9 ∧
    "Application Type: First-time" ∈ detailLines (mkPayload adaRaw) := by
  decide

/-- C9 (witness). -/
theorem factsheet_omission_law_witness :
    labelCount "Travel History" (detailSpec (mkPayload adaRaw)) = 0 ∧
    labelCount "Full Name" (detailSpec (mkPayload adaRaw)) = 1 := by
  constructor
  · have h := factsheet_omission_law.1 (mkPayload adaRaw)
      ("Travel History", fun p => p.travelHistory) (by simp [optionalFieldSpecs])
    rw [h]
    decide
  · have h := factsheet_omission_law.2.1 (mkPayload adaRaw) "Full Name" (by decide)
    exact h

/-- C10: with all seven base fields present and non-sponsor funding,
supplying exactly one of the two sponsor identity fields makes the
handler reject, listing the other one as missing. -/
theorem lone_sponsor_field_rejected (b : RawBody)
    (h1 : (mkPayload b).name.isNone = false)
    (h2 : (mkPayload b).age.isNone = false)
    (h3 : (mkPayload b).nationality.isNone = false)
    (h4 : (mkPayload b).destination.isNone = false)
    (h5 : (mkPayload b).visaType.isNone = false)
    (h6 : (mkPayload b).purpose.isNone = false)
    (h7 : (mkPayload b).income.isNone = false)
    (_hfund : (mkPayload b).funding = none ∨
      ∃ v, (mkPayload b).funding = some v ∧
        jsLower v ∉ (["sponsor", "sponsored", "sponsorship", "family", "employer"] : List String)) :
    ((mkPayload b).sponsorName.isSome = true → (mkPayload b).sponsorRelationship = none →
      generateLetterCheck b = Except.error [sponsorRelMsg]) ∧
    ((mkPayload b).sponsorRelationship.isSome = true → (mkPayload b).sponsorName = none →
      generateLetterCheck b = Except.error [sponsorNameMsg]) := by
  have hbase : baseMissing (mkPayload b) = [] := by
    simp [baseMissing, requiredKeys, reqGet, h1, h2, h3, h4, h5, h6, h7]
  constructor
  · intro hn hrel
    obtain ⟨v, hv⟩ := Option.isSome_iff_exists.mp hn
    have hsp : isSponsoredPayload (mkPayload b) = true := by
      simp only [isSponsoredPayload]
      simp [hv]
    have hrep : missingReport (mkPayload b) = [sponsorRelMsg] := by
      simp [missingReport, hbase, sponsorMissing, hsp, hv, hrel]
    simp [generateLetterCheck, hrep]
  · intro hr hname
    obtain ⟨v, hv⟩ := Option.isSome_iff_exists.mp hr
    have hsp : isSponsoredPayload (mkPayload b) = true := by
      simp only [isSponsoredPayload]
      simp [hv]
    have hrep : missingReport (mkPayload b) = [sponsorNameMsg] := by
      simp [missingReport, hbase, sponsorMissing, hsp, hv, hname]
    simp [generateLetterCheck, hrep]

/-- C10 (witness). -/
theorem lone_sponsor_field_rejected_witness :
    generateLetterCheck loneSponsorRaw = Except.error [sponsorRelMsg] :=
  (lone_sponsor_field_rejected loneSponsorRaw (by decide) (by decide) (by decide)
      (by decide) (by decide) (by decide) (by decide) (Or.inl (by decide))).1
    (by decide) (by decide)

end VisaApi

namespace VisaApi

/-- C1: the validation report of the handler names exactly the absent
required keys (membership for a required key holds iff that key's
cleaned value is absent; nothing else but the two conditional sponsor
entries ever appears), the sponsor entries are merged into the same
single report exactly when the payload is sponsored and the respective
field is absent, and the handler rejects precisely when the report is
non-empty, carrying the report itself. -/
theorem missing_fields_exact (b : RawBody) :
    (∀ k ∈ requiredKeys,
      (k ∈ missingReport (mkPayload b) ↔ reqGet (mkPayload b) k = none)) ∧
    (∀ x ∈ missingReport (mkPayload b),
      x ∈ requiredKeys ∨ x = sponsorNameMsg ∨ x = sponsorRelMsg) ∧
    (sponsorNameMsg ∈ missingReport (mkPayload b) ↔
      (isSponsoredPayload (mkPayload b) = true ∧ (mkPayload b).sponsorName = none)) ∧
    (sponsorRelMsg ∈ missingReport (mkPayload b) ↔
      (isSponsoredPayload (mkPayload b) = true ∧ (mkPayload b).sponsorRelationship = none)) ∧
    (missingReport (mkPayload b) = [] →
      generateLetterCheck b = Except.ok (detailLines (mkPayload b))) ∧
    (missingReport (mkPayload b) ≠ [] →
      generateLetterCheck b = Except.error (missingReport (mkPayload b))) := by
  have hsm : ∀ x ∈ sponsorMissing (mkPayload b),
      x = sponsorNameMsg ∨ x = sponsorRelMsg := by
    intro x hx
    unfold sponsorMissing at hx
    split_ifs at hx <;> simp_all [List.mem_append]
  have hnb : sponsorNameMsg ∉ baseMissing (mkPayload b) := by
    intro hmem
    exact absurd (List.mem_filter.mp hmem).1 (by decide)
  have hrb : sponsorRelMsg ∉ baseMissing (mkPayload b) := by
    intro hmem
    exact absurd (List.mem_filter.mp hmem).1 (by decide)
  refine ⟨?_, ?_, ?_, ?_, ?_, ?_⟩
  · intro k hk
    constructor
    · intro hmem
      rcases List.mem_append.mp hmem with hb2 | hs2
      · exact Option.isNone_iff_eq_none.mp (List.mem_filter.mp hb2).2
      · rcases hsm k hs2 with rfl | rfl
        · exact absurd hk (by decide)
        · exact absurd hk (by decide)
    · intro hnone
      exact List.mem_append_left _
        (List.mem_filter.mpr ⟨hk, by rw [hnone]; rfl⟩)
  · intro x hx
    rcases List.mem_append.mp hx with hb2 | hs2
    · exact Or.inl (List.mem_filter.mp hb2).1
    · exact Or.inr (hsm x hs2)
  · constructor
    · intro hmem
      rcases List.mem_append.mp hmem with hb2 | hs2
      · exact absurd hb2 hnb
      · unfold sponsorMissing at hs2
        split_ifs at hs2 <;>
          simp_all [Option.isNone_iff_eq_none, sponsorNameMsg, sponsorRelMsg]
    · rintro ⟨hsp, hnone⟩
      apply List.mem_append_right
      simp [sponsorMissing, hsp, hnone]
  · constructor
    · intro hmem
      rcases List.mem_append.mp hmem with hb2 | hs2
      · exact absurd hb2 hrb
      · unfold sponsorMissing at hs2
        split_ifs at hs2 <;>
          simp_all [Option.isNone_iff_eq_none, sponsorNameMsg, sponsorRelMsg]
    · rintro ⟨hsp, hnone⟩
      apply List.mem_append_right
      simp [sponsorMissing, hsp, hnone]
  · intro h
    simp [generateLetterCheck, h]
  · intro h
    cases hm : missingReport (mkPayload b) with
    | nil => exact absurd hm h
    | cons x xs => simp [generateLetterCheck, hm]

/-- C1 (witness). -/
theorem missing_fields_exact_witness :
    "age" ∈ missingReport (mkPayload missingRaw) ∧
    sponsorNameMsg ∈ missingReport (mkPayload missingRaw) := by
  have h := missing_fields_exact missingRaw
  exact ⟨(h.1 "age" (by decide)).mpr (by decide), h.2.2.1.mpr ⟨by decide, by decide⟩⟩

end VisaApi

namespace VisaApi

theorem margin_notin_funds (p : Payload) (b t : DecNum)
    (hb : parseNum p.currentBankBalance = some b)
    (ht : parseNum p.estimatedTripCost = some t)
    (hneg : (DecNum.sub b t).isNonneg = false) :
    ∀ m, RCue.margin m ∉ fundsCues p := by
  intro m h
  unfold fundsCues at h
  rw [hb, ht] at h
  cases hp : t.isPos <;> simp [hp, hneg] at h

theorem margin_notin_income (p : Payload) (m : DecNum) :
    RCue.margin m ∉ incomeCues p := by
  unfold incomeCues
  cases p.income <;> simp

theorem margin_notin_funding (p : Payload) (m : DecNum) :
    RCue.margin m ∉ fundingCues p := by
  intro h
  unfold fundingCues at h
  cases hf : p.funding with
  | none => rw [hf] at h; simp at h
  | some f =>
    rw [hf] at h
    cases h1 : (jsLower f == "employer") with
    | true =>
      simp only [h1] at h
      split_ifs at h <;> simp_all
    | false =>
      simp only [h1] at h
      cases h2 : (jsLower f == "family") with
      | true =>
        simp only [h2] at h
        split_ifs at h <;> simp_all
      | false =>
        simp only [h2] at h
        cases h3 : (jsLower f == "sponsor") with
        | true =>
          simp only [h3] at h
          cases hs : p.sponsorName <;> simp [hs] at h
        | false =>
          simp only [h3] at h
          simp at h

theorem margin_notin_stay (p : Payload) (m : DecNum) :
    RCue.margin m ∉ stayCues p := by
  unfold stayCues
  cases p.stayDetails <;> simp

theorem margin_notin_invite (p : Payload) (m : DecNum) :
    RCue.margin m ∉ inviteCues p := by
  intro h
  unfold inviteCues at h
  cases hi : p.invited with
  | none => rw [hi] at h; simp at h
  | some v =>
    rw [hi] at h
    cases hy : (jsLower v == "yes") <;> simp [hy] at h

theorem margin_notin_ties (p : Payload) (m : DecNum) :
    RCue.margin m ∉ tiesCues p := by
  intro h
  unfold tiesCues at h
  split_ifs at h <;> simp_all

theorem margin_notin_history (p : Payload) (m : DecNum) :
    RCue.margin m ∉ historyCues p := by
  intro h
  unfold historyCues at h
  split_ifs at h <;> simp_all

theorem margin_notin_reapp (p : Payload) (ty : String) (m : DecNum) :
    RCue.margin m ∉ reappCues p ty := by
  intro h
  unfold reappCues at h
  split_ifs at h <;> simp_all [List.mem_append]

theorem margin_notin_purpose (p : Payload) (m : DecNum) :
    RCue.margin m ∉ purposeCues p := by
  intro h
  unfold purposeCues at h
  split_ifs at h <;> simp_all [List.mem_append]

/-- C4: the rationale list never exceeds eight entries, and when both
money fields parse with a negative margin no margin statement appears. -/
theorem rationale_cap_and_no_negative_margin (p : Payload) (ty : String) :
    (buildRationalePoints p ty).length ≤ 8 ∧
    (∀ b t, parseNum p.currentBankBalance = some b →
      parseNum p.estimatedTripCost = some t →
      (DecNum.sub b t).isNonneg = false →
      ∀ m, RCue.margin m ∉ buildRationalePoints p ty) := by
  constructor
  · unfold buildRationalePoints
    rw [List.length_take]
    exact Nat.min_le_left _ _
  · intro b t hb ht hneg m hmem
    have hmem2 := List.mem_of_mem_take hmem
    simp only [List.mem_append, or_assoc] at hmem2
    rcases hmem2 with h | h | h | h | h | h | h | h | h
    · exact margin_notin_funds p b t hb ht hneg m h
    · exact margin_notin_income p m h
    · exact margin_notin_funding p m h
    · exact margin_notin_stay p m h
    · exact margin_notin_invite p m h
    · exact margin_notin_ties p m h
    · exact margin_notin_history p m h
    · exact margin_notin_reapp p ty m h
    · exact margin_notin_purpose p m h

/-- C4 (witness): a below-cost balance yields a capped list without any
margin statement. -/
theorem rationale_cap_witness :
    (buildRationalePoints (mkPayload negMarginRaw) "First-time").length ≤ 8 ∧
    RCue.margin (DecNum.sub ⟨1000, 0⟩ ⟨2000, 0⟩) ∉
      buildRationalePoints (mkPayload negMarginRaw) "First-time" := by
  have h := rationale_cap_and_no_negative_margin (mkPayload negMarginRaw) "First-time"
  exact ⟨h.1, h.2 ⟨1000, 0⟩ ⟨2000, 0⟩ (by decide) (by decide) (by decide) _⟩

end VisaApi

namespace VisaApi

theorem dropWhile_length_le (p : Char → Bool) (l : List Char) :
    (l.dropWhile p).length ≤ l.length :=
  ((List.dropWhile_suffix p).sublist).length_le

theorem trimChars_length_le (l : List Char) : (trimChars l).length ≤ l.length := by
  unfold trimChars
  rw [List.length_reverse]
  calc ((l.dropWhile jsWs).reverse.dropWhile jsWs).length
      ≤ (l.dropWhile jsWs).reverse.length := dropWhile_length_le _ _
    _ = (l.dropWhile jsWs).length := List.length_reverse _
    _ ≤ l.length := dropWhile_length_le _ _

theorem digestLoop_length_le (per total : Nat) :
    ∀ (fs : List (List Char × List Char)) (i : Nat) (out : List Char),
      out.length ≤ total → (digestLoop per total fs i out).length ≤ total := by
  intro fs
  induction fs with
  | nil => intro i out h; exact h
  | cons f rest ih =>
    intro i out h
    obtain ⟨name, text⟩ := f
    simp only [digestLoop]
    split_ifs with hc
    · exact h
    · exact ih (i + 1) _ (Nat.le_of_not_lt hc)

theorem digestLoop_whole_blocks (per total : Nat) :
    ∀ (fs : List (List Char × List Char)) (i : Nat) (out : List Char),
      ∃ k, digestLoop per total fs i out = out ++ blocksConcat per (fs.take k) i := by
  intro fs
  induction fs with
  | nil =>
    intro i out
    exact ⟨0, by simp [digestLoop, blocksConcat]⟩
  | cons f rest ih =>
    intro i out
    obtain ⟨name, text⟩ := f
    simp only [digestLoop]
    split_ifs with hc
    · exact ⟨0, by simp [blocksConcat]⟩
    · obtain ⟨k, hk⟩ := ih (i + 1) (out ++ sampleBlock i name text per)
      refine ⟨k + 1, ?_⟩
      rw [hk]
      simp [blocksConcat, List.append_assoc]

/-- C6: the style digest never exceeds the configured total character
budget, and the pre-trim accumulator is always a concatenation of whole
sample blocks (an overflowing file is dropped entirely, never partially
appended). -/
theorem styleDigest_bounded (files : List (List Char × List Char))
    (maxFiles perFileChars totalChars : Nat) :
    (buildStyleDigest files maxFiles perFileChars totalChars).length ≤ totalChars ∧
    ∃ k, digestLoop perFileChars totalChars (files.take maxFiles) 0 [] =
      blocksConcat perFileChars ((files.take maxFiles).take k) 0 := by
  constructor
  · unfold buildStyleDigest
    exact le_trans (trimChars_length_le _)
      (digestLoop_length_le _ _ _ _ _ (by simp))
  · obtain ⟨k, hk⟩ :=
      digestLoop_whole_blocks perFileChars totalChars (files.take maxFiles) 0 []
    exact ⟨k, by simpa using hk⟩

end VisaApi


namespace VisaApi

/-- C2 (witness). -/
theorem isSponsoredPayload_spec_witness :
    isSponsoredPayload (mkPayload missingRaw) = true :=
  (isSponsoredPayload_spec (mkPayload missingRaw)).mpr
    (Or.inl ⟨"family", by decide, by decide⟩)

/-- C3 (witness). -/
theorem detectApplicationType_spec_witness :
    detectApplicationType (mkPayload refusalFieldRaw) = "Reapplication" :=
  ((detectApplicationType_spec (mkPayload refusalFieldRaw)).2).mpr (Or.inr (by decide))

/-- C6 (witness). -/
theorem styleDigest_bounded_witness :
    (buildStyleDigest [("a.txt".data, List.replicate 1000 'x')] 10 900 30).length ≤ 30 :=
  (styleDigest_bounded [("a.txt".data, List.replicate 1000 'x')] 10 900 30).1

end VisaApi
